import Mathlib

/-
Verification of the handler lifecycle of dexy (src/dexy/handler.py):
extension negotiation in `DexyHandler.setup`, transformation-style dispatch
in `DexyHandler.process`, and the cache gate in
`DexyHandler.generate_artifact`, shallowly embedded in Lean 4.
-/

namespace Dexy

/-- Static per-stage declaration, translated from the class attributes of
`DexyHandler` (handler.py lines 18-20): `INPUT_EXTENSIONS` and
`OUTPUT_EXTENSIONS` are ordered lists of format tags that may contain the
wildcard `".*"`.  `name` stands for the Python class name (`__name__`),
used for `next_handler_name`. -/
structure HandlerSpec where
  name : String
  INPUT_EXTENSIONS : List String
  OUTPUT_EXTENSIONS : List String
deriving Repr, DecidableEq

/-- The distinct exceptions `setup` can raise: the unsupported-extension
message of handler.py lines 34-36, the no-compatible-extension message of
line 48, and the Python `IndexError` from `OUTPUT_EXTENSIONS[0]` on an
empty list (line 50). -/
inductive SetupError where
  | UnsupportedInputFormat
  | NoCompatibleFormat
  | IndexError
deriving Repr, DecidableEq

/-- The slice of the Artifact state that `setup` touches:
`next_handler_name` (handler.py line 29) and `ext` (lines 40, 45). -/
structure ArtifactState where
  next_handler_name : Option String
  ext : Option String
deriving Repr, DecidableEq

/-- The handler-instance state assembled by `setup`: the attached artifact
(line 27) and the resolved input extension `h.ext` (line 37). -/
structure HandlerState where
  artifact : Option ArtifactState
  ext : Option String
deriving Repr, DecidableEq

/-- Modelled from the spec: `Artifact.setup` lives in dexy/artifact.py,
which is not under src/.  Per the spec the artifact's output format is
unset when the artifact is created and is resolved only during extension
negotiation (the output extension "is always a single, concrete value by
the time setup completes"), so the fresh artifact carries `ext := none`;
`next_handler_name` is set from the next handler's class name when one is
given (handler.py lines 28-29). -/
def initialArtifact (next_handler : Option HandlerSpec) : ArtifactState :=
  { next_handler_name := next_handler.map HandlerSpec.name, ext := none }

/-- The loop of handler.py lines 43-45:
`for e in h.OUTPUT_EXTENSIONS: if e in next_handler.INPUT_EXTENSIONS:
h.artifact.ext = e`.  `acc` is the value of `h.artifact.ext` entering the
loop; note the loop has no `break`, so every matching entry overwrites the
previous assignment. -/
def extLoop (outs next_in : List String) (acc : Option String) : Option String :=
  match outs with
  | [] => acc
  | e :: rest => extLoop rest next_in (if next_in.contains e then some e else acc)

/-- Python truthiness of `h.artifact.ext` as tested by
`if not h.artifact.ext` (handler.py line 47): both an unset value (`None`)
and the empty string are falsy. -/
def pyFalsy : Option String → Bool
  | none => true
  | some s => s.isEmpty

/-- The `else` branch of handler.py lines 49-50:
`h.artifact.ext = h.OUTPUT_EXTENSIONS[0]`; indexing an empty list raises
`IndexError` before any assignment happens. -/
def setupFirstOut (klass : HandlerSpec) (prev_ext : String)
    (next_handler : Option HandlerSpec) : HandlerState × Option SetupError :=
  match klass.OUTPUT_EXTENSIONS with
  | [] =>
    ({ artifact := some (initialArtifact next_handler), ext := some prev_ext },
     some SetupError.IndexError)
  | e :: _ =>
    ({ artifact := some { initialArtifact next_handler with ext := some e },
       ext := some prev_ext }, none)

/-- `DexyHandler.setup` (handler.py lines 23-58), restricted to the state
the claims are about.  The artifact is created and attached first
(line 27) and `next_handler_name` recorded (lines 28-29); then the input
extension is validated: `set([ext, ".*"]).isdisjoint(set(h.INPUT_EXTENSIONS))`
(line 33) holds exactly when neither `ext` nor `".*"` is a member of
`INPUT_EXTENSIONS`, and then the unsupported-extension exception is raised
(the branch below tests the negation, acceptance, first).  On acceptance
`h.ext` is set (line 37) and the output extension resolved
(lines 39-50); `set_hashstring` and logger wiring (lines 52-57) are
outside the claims and elided. -/
def setup (klass : HandlerSpec) (prev_ext : String)
    (next_handler : Option HandlerSpec) : HandlerState × Option SetupError :=
  if prev_ext ∈ klass.INPUT_EXTENSIONS ∨ ".*" ∈ klass.INPUT_EXTENSIONS then
    if ".*" ∈ klass.OUTPUT_EXTENSIONS then
      ({ artifact := some { initialArtifact next_handler with ext := some prev_ext },
         ext := some prev_ext }, none)
    else
      match next_handler with
      | some nh =>
        if ".*" ∈ nh.INPUT_EXTENSIONS then
          setupFirstOut klass prev_ext next_handler
        else
          ({ artifact := some { initialArtifact next_handler with
               ext := extLoop klass.OUTPUT_EXTENSIONS nh.INPUT_EXTENSIONS
                 (initialArtifact next_handler).ext },
             ext := some prev_ext },
           if pyFalsy (extLoop klass.OUTPUT_EXTENSIONS nh.INPUT_EXTENSIONS
               (initialArtifact next_handler).ext) then
             some SetupError.NoCompatibleFormat
           else none)
      | none => setupFirstOut klass prev_ext next_handler
  else
    ({ artifact := some (initialArtifact next_handler), ext := none },
     some SetupError.UnsupportedInputFormat)

/-- The resolved output extension held by the handler's artifact after
`setup`. -/
def artifactExt (h : HandlerState) : Option String :=
  match h.artifact with
  | some a => a.ext
  | none => none

/-- The rule stated by the spec for step 3 of extension negotiation, from
the spec's own words: "pick the first entry of this stage's
`producedOutputExtensions`, in declared order, that also appears in the
next stage's accepted-input sequence".  Defined for comparison against the
behaviour of `setup`; it is not part of the embedding of the source. -/
def firstMatchSpec (outs next_in : List String) : Option String :=
  outs.find? (fun e => next_in.contains e)

/-- The Artifact state that `DexyHandler.process` touches:
`input_data_dict` and `data_dict` are ordered fragment-id-to-content
mappings (OrderedDict in the source), embedded as association lists. -/
structure PArtifact where
  input_data_dict : List (String × String)
  data_dict : List (String × String)
deriving Repr, DecidableEq

/-- A concrete stage implementation, as `process` observes it through
`hasattr` (handler.py lines 69, 77, 85): each of the three convenience
methods is either absent or some function. -/
structure Stage where
  process_text : Option (String → String)
  process_dict : Option (List (String × String) → List (String × String))
  process_text_to_dict : Option (String → List (String × String))

/-- Modelled from the spec: `Artifact.input_text` lives in
dexy/artifact.py, which is not under src/.  Per the spec it returns "the
single concatenated input text", the concatenation of the ordered input
fragments' contents. -/
def input_text (art : PArtifact) : String :=
  art.input_data_dict.foldl (fun acc p => acc ++ p.2) ""

/-- Python's `d['1'] = v` on an ordered dict: replace the value in place
when the key is present, otherwise append the pair at the end. -/
def setKey (d : List (String × String)) (k v : String) : List (String × String) :=
  if d.any (fun p => p.1 = k) then
    d.map (fun p => if p.1 = k then (k, v) else p)
  else d ++ [(k, v)]

/-- The exception of handler.py lines 71, 79, 87:
`"%s has already been called" % method_used`, carrying the name of the
convenience method that already ran. -/
inductive ProcessError where
  | AmbiguousProcessMethod (method_used : String)
deriving Repr, DecidableEq

/-- The `process_text_to_dict` block of handler.py lines 85-91 followed by
the default block of lines 93-95 and the `return method_used` of
line 97. -/
def processBlock3 (stage : Stage) (art : PArtifact) (method_used : Option String) :
    PArtifact × Except ProcessError String :=
  match stage.process_text_to_dict with
  | some f =>
    match method_used with
    | some m => (art, Except.error (ProcessError.AmbiguousProcessMethod m))
    | none =>
      ({ art with data_dict := f (input_text art) }, Except.ok "process_text_to_dict")
  | none =>
    match method_used with
    | some m => (art, Except.ok m)
    | none => ({ art with data_dict := art.input_data_dict }, Except.ok "process")

/-- The `process_dict` block of handler.py lines 77-83, continuing into
`processBlock3`. -/
def processBlock2 (stage : Stage) (art : PArtifact) (method_used : Option String) :
    PArtifact × Except ProcessError String :=
  match stage.process_dict with
  | some f =>
    match method_used with
    | some m => (art, Except.error (ProcessError.AmbiguousProcessMethod m))
    | none =>
      processBlock3 stage { art with data_dict := f art.input_data_dict }
        (some "process_dict")
  | none => processBlock3 stage art method_used

/-- `DexyHandler.process` (handler.py lines 61-97): starting with
`method_used = None`, run the `process_text` block (lines 69-75) — whose
already-called check can never fire since `method_used` is still `None` —
then the remaining blocks.  Returns the artifact state together with
either the method name returned (line 97) or the exception raised. -/
def process (stage : Stage) (art : PArtifact) : PArtifact × Except ProcessError String :=
  match stage.process_text with
  | some f =>
    processBlock2 stage
      { art with data_dict := setKey art.data_dict "1" (f (input_text art)) }
      (some "process_text")
  | none => processBlock2 stage art none

/-- The observable events of one `generate_artifact` invocation:
whether `load_dj` ran (handler.py line 117), whether `process` ran
(line 120), whether `generate` persisted the artifact (line 121), the
outcome string handed to `log_time` (line 124) or the exception that
propagated, and the final artifact state. -/
structure GenResult where
  loaded : Bool
  processRan : Bool
  persisted : Bool
  outcome : Except ProcessError String
  art : PArtifact
deriving Repr

/-- `DexyHandler.generate_artifact` (handler.py lines 112-126).
`dj_file_exists` is the cache-presence check of line 115 (the persisted
artifact store is external, dexy/artifact.py).  On a hit, `load_dj` runs
and the outcome is `"cached"`; on a miss, `process` runs and, only when it
returns normally, `generate` persists the artifact and the outcome is
`"generated"`; an exception from `process` propagates before `generate` is
reached. -/
def generate_artifact (stage : Stage) (dj_file_exists : Bool) (art : PArtifact) :
    GenResult :=
  if dj_file_exists then
    { loaded := true, processRan := false, persisted := false,
      outcome := Except.ok "cached", art := art }
  else
    match process stage art with
    | (art2, Except.error e) =>
      { loaded := false, processRan := true, persisted := false,
        outcome := Except.error e, art := art2 }
    | (art2, Except.ok _) =>
      { loaded := false, processRan := true, persisted := true,
        outcome := Except.ok "generated", art := art2 }

/-- Concrete stage used in witnesses: implements `process_text` and
`process_dict` and omits `process_text_to_dict`. -/
def stageTD : Stage := ⟨some (fun s => s), some (fun d => d), none⟩

/-- Concrete stage used in witnesses: implements none of the three
convenience methods. -/
def stageId : Stage := ⟨none, none, none⟩

/-- Concrete artifact state used in witnesses. -/
def artA : PArtifact := ⟨[("1", "abc")], []⟩

/-- The no-`break` loop of handler.py lines 43-45 leaves `h.artifact.ext`
at the LAST entry of `outs` that occurs in `next_in`, falling back to the
initial value when no entry matches. -/
theorem extLoop_eq_lastMatch (outs next_in : List String) (acc : Option String) :
    extLoop outs next_in acc =
      match (outs.filter (fun e => next_in.contains e)).getLast? with
      | some e => some e
      | none => acc := by
  induction outs generalizing acc with
  | nil => rfl
  | cons e rest ih =>
    rw [extLoop]
    by_cases he : next_in.contains e = true
    · rw [if_pos he, ih, List.filter_cons_of_pos he]
      cases hfr : rest.filter (fun x => next_in.contains x) with
      | nil => simp
      | cons a l =>
        rw [List.getLast?_cons_cons]
        cases hg : (a :: l).getLast? with
        | none => exact absurd (List.getLast?_eq_none_iff.mp hg) (by simp)
        | some x => rfl
    · rw [if_neg he, ih, List.filter_cons_of_neg (by simpa using he)]

/-- Updating key `k` with value `v` makes the pair `(k, v)` a member of the
mapping. -/
theorem mem_setKey (d : List (String × String)) (k v : String) :
    (k, v) ∈ setKey d k v := by
  unfold setKey
  split
  · rename_i h
    rw [List.any_eq_true] at h
    obtain ⟨p, hp, hpk⟩ := h
    rw [List.mem_map]
    refine ⟨p, hp, ?_⟩
    simp only [decide_eq_true_eq] at hpk
    simp [hpk]
  · exact List.mem_append_right _ (by simp)

/-- The `OUTPUT_EXTENSIONS[0]` branch never raises the
unsupported-extension exception. -/
theorem setupFirstOut_ne_unsupported (klass : HandlerSpec) (prev_ext : String)
    (next_handler : Option HandlerSpec) :
    (setupFirstOut klass prev_ext next_handler).2 ≠
      some SetupError.UnsupportedInputFormat := by
  unfold setupFirstOut
  cases klass.OUTPUT_EXTENSIONS <;> simp

/-- Once the input extension passed validation (handler.py line 33), no
later step of `setup` raises the unsupported-extension exception. -/
theorem setup_accepted_not_unsupported (klass : HandlerSpec) (prev_ext : String)
    (next_handler : Option HandlerSpec)
    (hacc : prev_ext ∈ klass.INPUT_EXTENSIONS ∨ ".*" ∈ klass.INPUT_EXTENSIONS) :
    (setup klass prev_ext next_handler).2 ≠
      some SetupError.UnsupportedInputFormat := by
  unfold setup
  rw [if_pos hacc]
  by_cases hw : ".*" ∈ klass.OUTPUT_EXTENSIONS
  · rw [if_pos hw]
    simp
  · rw [if_neg hw]
    cases next_handler with
    | none => exact setupFirstOut_ne_unsupported klass prev_ext none
    | some nh =>
      by_cases hnw : ".*" ∈ nh.INPUT_EXTENSIONS
      · dsimp only
        rw [if_pos hnw]
        exact setupFirstOut_ne_unsupported klass prev_ext (some nh)
      · dsimp only
        rw [if_neg hnw]
        split <;> simp

/-- C6: `setup` raises the unsupported-extension failure if and only if
the upstream extension is not a member of `INPUT_EXTENSIONS` and
`INPUT_EXTENSIONS` does not contain the wildcard `".*"`; when the
extension is accepted (directly or via the wildcard), this failure is
never raised. -/
theorem setup_unsupported_iff (klass : HandlerSpec) (prev_ext : String)
    (next_handler : Option HandlerSpec) :
    (setup klass prev_ext next_handler).2 = some SetupError.UnsupportedInputFormat ↔
      (prev_ext ∉ klass.INPUT_EXTENSIONS ∧ ".*" ∉ klass.INPUT_EXTENSIONS) := by
  constructor
  · intro h
    by_contra hc
    rw [not_and_or, not_not, not_not] at hc
    exact setup_accepted_not_unsupported klass prev_ext next_handler hc h
  · intro hc
    unfold setup
    rw [if_neg (not_or.mpr ⟨hc.1, hc.2⟩)]

/-- C7: when `OUTPUT_EXTENSIONS` contains the wildcard `".*"` and the
upstream extension is accepted, `setup` succeeds and the resolved output
extension equals the upstream extension, whatever the next handler is
(handler.py lines 39-40). -/
theorem setup_wildcard_passthrough (klass : HandlerSpec) (prev_ext : String)
    (next_handler : Option HandlerSpec)
    (hacc : prev_ext ∈ klass.INPUT_EXTENSIONS ∨ ".*" ∈ klass.INPUT_EXTENSIONS)
    (hw : ".*" ∈ klass.OUTPUT_EXTENSIONS) :
    (setup klass prev_ext next_handler).2 = none ∧
    artifactExt (setup klass prev_ext next_handler).1 = some prev_ext := by
  unfold setup
  rw [if_pos hacc, if_pos hw]
  exact ⟨rfl, rfl⟩

theorem setup_wildcard_passthrough_witness :
    (setup (HandlerSpec.mk "P" [".*"] [".*"]) "py"
        (some (HandlerSpec.mk "N" ["tex"] ["pdf"]))).2 = none ∧
    artifactExt (setup (HandlerSpec.mk "P" [".*"] [".*"]) "py"
        (some (HandlerSpec.mk "N" ["tex"] ["pdf"]))).1 = some "py" :=
  setup_wildcard_passthrough (HandlerSpec.mk "P" [".*"] [".*"]) "py"
    (some (HandlerSpec.mk "N" ["tex"] ["pdf"])) (Or.inr (by decide)) (by decide)

/-- C8: with an accepted upstream extension, no wildcard in
`OUTPUT_EXTENSIONS`, a next handler given, no wildcard in the next
handler's `INPUT_EXTENSIONS`, and no entry of `OUTPUT_EXTENSIONS`
occurring in the next handler's `INPUT_EXTENSIONS`, `setup` raises the
no-compatible-extension failure (handler.py lines 42-48). -/
theorem setup_no_compatible_format (klass nh : HandlerSpec) (prev_ext : String)
    (hacc : prev_ext ∈ klass.INPUT_EXTENSIONS ∨ ".*" ∈ klass.INPUT_EXTENSIONS)
    (hw : ".*" ∉ klass.OUTPUT_EXTENSIONS)
    (hnw : ".*" ∉ nh.INPUT_EXTENSIONS)
    (hnone : ∀ e ∈ klass.OUTPUT_EXTENSIONS, e ∉ nh.INPUT_EXTENSIONS) :
    (setup klass prev_ext (some nh)).2 = some SetupError.NoCompatibleFormat := by
  have hfil : klass.OUTPUT_EXTENSIONS.filter
      (fun e => nh.INPUT_EXTENSIONS.contains e) = [] := by
    rw [List.filter_eq_nil_iff]
    intro a ha
    simpa using hnone a ha
  have hloop : extLoop klass.OUTPUT_EXTENSIONS nh.INPUT_EXTENSIONS
      (initialArtifact (some nh)).ext = none := by
    rw [extLoop_eq_lastMatch, hfil]
    rfl
  unfold setup
  rw [if_pos hacc, if_neg hw]
  dsimp only
  rw [if_neg hnw, hloop]
  rfl

theorem setup_no_compatible_format_witness :
    (setup (HandlerSpec.mk "K" [".*"] ["html"]) "py"
        (some (HandlerSpec.mk "N" ["tex"] ["pdf"]))).2 =
      some SetupError.NoCompatibleFormat :=
  setup_no_compatible_format (HandlerSpec.mk "K" [".*"] ["html"])
    (HandlerSpec.mk "N" ["tex"] ["pdf"]) "py"
    (Or.inr (by decide)) (by decide) (by decide) (by decide)

/-- C1 counterexample: with `producedOutputExtensions = ["html", "tex"]`
and a next stage accepting `["html", "tex"]`, the first producible entry
accepted downstream is `"html"`, but `setup` resolves the output extension
to `"tex"`: the loop of handler.py lines 43-45 has no `break`, so the LAST
matching entry wins, refuting first-match-wins when a later entry also
matches. -/
theorem setup_first_match_cex :
    firstMatchSpec ["html", "tex"] ["html", "tex"] = some "html" ∧
    artifactExt (setup (HandlerSpec.mk "K" [".*"] ["html", "tex"]) "md"
        (some (HandlerSpec.mk "N" ["html", "tex"] ["pdf"]))).1 = some "tex" ∧
    (some "tex" : Option String) ≠ some "html" := by
  refine ⟨rfl, rfl, by decide⟩

/-- C1 amended: under the same preconditions (accepted upstream extension,
no wildcard among produced output extensions, next stage given and not
accepting the wildcard), the resolved output extension is the LAST entry
of `OUTPUT_EXTENSIONS`, in declared order, that also appears in the next
stage's `INPUT_EXTENSIONS` (provided that entry is a non-empty string, as
an empty string would be falsy at the `if not h.artifact.ext` check), and
`setup` succeeds. -/
theorem setup_last_match (klass nh : HandlerSpec) (prev_ext e : String)
    (hacc : prev_ext ∈ klass.INPUT_EXTENSIONS ∨ ".*" ∈ klass.INPUT_EXTENSIONS)
    (hw : ".*" ∉ klass.OUTPUT_EXTENSIONS)
    (hnw : ".*" ∉ nh.INPUT_EXTENSIONS)
    (hlast : (klass.OUTPUT_EXTENSIONS.filter
        (fun x => nh.INPUT_EXTENSIONS.contains x)).getLast? = some e)
    (hne : e ≠ "") :
    (setup klass prev_ext (some nh)).2 = none ∧
    artifactExt (setup klass prev_ext (some nh)).1 = some e := by
  have hloop : extLoop klass.OUTPUT_EXTENSIONS nh.INPUT_EXTENSIONS
      (initialArtifact (some nh)).ext = some e := by
    rw [extLoop_eq_lastMatch, hlast]
  have hfalsy : pyFalsy (some e) = false := by
    simp only [pyFalsy]
    rw [Bool.eq_false_iff]
    intro hemp
    exact hne ((String.isEmpty_iff e).mp hemp)
  unfold setup
  rw [if_pos hacc, if_neg hw]
  dsimp only
  rw [if_neg hnw, hloop, hfalsy]
  exact ⟨rfl, rfl⟩

theorem setup_last_match_witness :
    (setup (HandlerSpec.mk "K" [".*"] ["html", "tex"]) "md"
        (some (HandlerSpec.mk "N" ["html", "tex"] ["pdf"]))).2 = none ∧
    artifactExt (setup (HandlerSpec.mk "K" [".*"] ["html", "tex"]) "md"
        (some (HandlerSpec.mk "N" ["html", "tex"] ["pdf"]))).1 = some "tex" :=
  setup_last_match (HandlerSpec.mk "K" [".*"] ["html", "tex"])
    (HandlerSpec.mk "N" ["html", "tex"] ["pdf"]) "md" "tex"
    (Or.inr (by decide)) (by decide) (by decide) (by decide) (by decide)

/-- C2 counterexample: with `INPUT_EXTENSIONS = ["md"]` and upstream
extension `"py"`, `setup` raises the unsupported-extension failure, yet
the handler state at that point already holds an attached Artifact:
`Artifact.setup` runs at handler.py line 27, before the validation of
line 33, refuting "no Artifact is created or attached". -/
theorem setup_artifact_created_cex :
    (setup (HandlerSpec.mk "K" ["md"] ["html"]) "py" none).2 =
      some SetupError.UnsupportedInputFormat ∧
    (setup (HandlerSpec.mk "K" ["md"] ["html"]) "py" none).1.artifact.isSome = true :=
  ⟨rfl, rfl⟩

/-- C2 amended: when `setup` fails with the unsupported-extension failure,
an Artifact has already been created and attached to the handler instance
(with its output extension still unresolved): artifact creation at
handler.py line 27 precedes input-format validation at line 33. -/
theorem setup_artifact_attached_on_unsupported (klass : HandlerSpec)
    (prev_ext : String) (next_handler : Option HandlerSpec)
    (h : (setup klass prev_ext next_handler).2 =
      some SetupError.UnsupportedInputFormat) :
    (setup klass prev_ext next_handler).1.artifact =
      some (initialArtifact next_handler) := by
  by_cases hacc : prev_ext ∈ klass.INPUT_EXTENSIONS ∨ ".*" ∈ klass.INPUT_EXTENSIONS
  · exact absurd h (setup_accepted_not_unsupported klass prev_ext next_handler hacc)
  · unfold setup
    rw [if_neg hacc]

theorem setup_artifact_attached_on_unsupported_witness :
    (setup (HandlerSpec.mk "W" ["md"] ["html"]) "py" none).1.artifact =
      some (initialArtifact none) :=
  setup_artifact_attached_on_unsupported (HandlerSpec.mk "W" ["md"] ["html"])
    "py" none rfl

/-- C3: whenever a stage implements more than one of the three
convenience methods (`process_text`, `process_dict`,
`process_text_to_dict`), `process` raises the already-called exception
naming the method that already ran — `process_text` when it is present,
otherwise `process_dict` — and never silently picks one
(handler.py lines 67-91). -/
theorem process_ambiguous_method (stage : Stage) (art : PArtifact)
    (h : (stage.process_text.isSome ∧ stage.process_dict.isSome) ∨
         (stage.process_text.isSome ∧ stage.process_text_to_dict.isSome) ∨
         (stage.process_dict.isSome ∧ stage.process_text_to_dict.isSome)) :
    ∃ m, (process stage art).2 =
        Except.error (ProcessError.AmbiguousProcessMethod m) ∧
      ((stage.process_text.isSome = true ∧ m = "process_text") ∨
       (stage.process_text = none ∧ stage.process_dict.isSome = true ∧
         m = "process_dict")) := by
  rcases htext : stage.process_text with _ | f
  · rcases hdict : stage.process_dict with _ | g
    · simp [htext, hdict] at h
    · rcases ht2d : stage.process_text_to_dict with _ | k
      · simp [htext, hdict, ht2d] at h
      · refine ⟨"process_dict", ?_, Or.inr ⟨rfl, rfl, rfl⟩⟩
        simp [process, processBlock2, processBlock3, htext, hdict, ht2d]
  · rcases hdict : stage.process_dict with _ | g
    · rcases ht2d : stage.process_text_to_dict with _ | k
      · simp [htext, hdict, ht2d] at h
      · refine ⟨"process_text", ?_, Or.inl ⟨by simp [htext], rfl⟩⟩
        simp [process, processBlock2, processBlock3, htext, hdict, ht2d]
    · refine ⟨"process_text", ?_, Or.inl ⟨by simp [htext], rfl⟩⟩
      simp [process, processBlock2, htext, hdict]

theorem process_ambiguous_method_witness :
    ∃ m, (process stageTD artA).2 =
        Except.error (ProcessError.AmbiguousProcessMethod m) ∧
      ((stageTD.process_text.isSome = true ∧ m = "process_text") ∨
       (stageTD.process_text = none ∧ stageTD.process_dict.isSome = true ∧
         m = "process_dict")) :=
  process_ambiguous_method stageTD artA (Or.inl ⟨rfl, rfl⟩)

/-- C5: when a stage implements none of the three convenience methods,
`process` completes without error (returning `"process"`), and the
artifact's output mapping equals its input mapping unchanged
(handler.py lines 93-95). -/
theorem process_identity_default (stage : Stage) (art : PArtifact)
    (h1 : stage.process_text = none) (h2 : stage.process_dict = none)
    (h3 : stage.process_text_to_dict = none) :
    (process stage art).1.data_dict = art.input_data_dict ∧
    (process stage art).1.input_data_dict = art.input_data_dict ∧
    (process stage art).2 = Except.ok "process" := by
  simp [process, processBlock2, processBlock3, h1, h2, h3]

theorem process_identity_default_witness :
    (process stageId artA).1.data_dict = artA.input_data_dict ∧
    (process stageId artA).1.input_data_dict = artA.input_data_dict ∧
    (process stageId artA).2 = Except.ok "process" :=
  process_identity_default stageId artA rfl rfl rfl

/-- C10: when a stage implements both `process_text` and `process_dict`,
the already-called exception (naming `process_text`) is raised only after
the `process_text` block has run: its result is already stored under
output fragment `"1"` in the artifact's output mapping, and that write is
not rolled back when the exception is raised (handler.py lines 69-83). -/
theorem process_ambiguous_after_text_written (stage : Stage) (art : PArtifact)
    (f : String → String) (g : List (String × String) → List (String × String))
    (ht : stage.process_text = some f) (hd : stage.process_dict = some g) :
    (process stage art).2 =
      Except.error (ProcessError.AmbiguousProcessMethod "process_text") ∧
    (process stage art).1.data_dict = setKey art.data_dict "1" (f (input_text art)) ∧
    ("1", f (input_text art)) ∈ (process stage art).1.data_dict := by
  refine ⟨?_, ?_, ?_⟩
  · simp [process, processBlock2, ht, hd]
  · simp [process, processBlock2, ht, hd]
  · have hdd : (process stage art).1.data_dict =
        setKey art.data_dict "1" (f (input_text art)) := by
      simp [process, processBlock2, ht, hd]
    rw [hdd]
    exact mem_setKey art.data_dict "1" (f (input_text art))

theorem process_ambiguous_after_text_written_witness :
    (process stageTD artA).2 =
      Except.error (ProcessError.AmbiguousProcessMethod "process_text") ∧
    (process stageTD artA).1.data_dict =
      setKey artA.data_dict "1" ((fun s => s) (input_text artA)) ∧
    ("1", (fun s => s) (input_text artA)) ∈ (process stageTD artA).1.data_dict :=
  process_ambiguous_after_text_written stageTD artA (fun s => s) (fun d => d) rfl rfl

/-- C4: in `generate_artifact`, exactly one of the two paths executes
(handler.py lines 115-121): when the persisted artifact exists, it is
loaded, `process` does not run, nothing is persisted, and the outcome
reported is `"cached"`; otherwise `process` runs, nothing is loaded, and —
when `process` returns normally — the artifact is persisted and the
outcome reported is `"generated"`. -/
theorem generate_artifact_two_paths (stage : Stage) (dj : Bool) (art : PArtifact) :
    (dj = true →
      (generate_artifact stage dj art).loaded = true ∧
      (generate_artifact stage dj art).processRan = false ∧
      (generate_artifact stage dj art).persisted = false ∧
      (generate_artifact stage dj art).outcome = Except.ok "cached") ∧
    (dj = false →
      (generate_artifact stage dj art).loaded = false ∧
      (generate_artifact stage dj art).processRan = true ∧
      (∀ m, (process stage art).2 = Except.ok m →
        (generate_artifact stage dj art).persisted = true ∧
        (generate_artifact stage dj art).outcome = Except.ok "generated")) := by
  cases dj
  · refine ⟨by simp, fun _ => ?_⟩
    unfold generate_artifact
    cases hp : process stage art with
    | mk a r =>
      cases r with
      | error e => exact ⟨by simp, by simp, fun m hm => absurd hm (by simp)⟩
      | ok v => exact ⟨by simp, by simp, fun m hm => ⟨by simp, by simp⟩⟩
  · exact ⟨fun _ => ⟨rfl, rfl, rfl, rfl⟩, by simp⟩

theorem generate_artifact_two_paths_witness :
    (generate_artifact stageId true artA).outcome = Except.ok "cached" ∧
    (generate_artifact stageId false artA).persisted = true ∧
    (generate_artifact stageId false artA).outcome = Except.ok "generated" :=
  ⟨((generate_artifact_two_paths stageId true artA).1 rfl).2.2.2,
   (((generate_artifact_two_paths stageId false artA).2 rfl).2.2 "process" rfl).1,
   (((generate_artifact_two_paths stageId false artA).2 rfl).2.2 "process" rfl).2⟩

/-- C9: on the cache-miss path, `generate_artifact` persists the artifact
if and only if `process` returns normally; when `process` raises, nothing
is persisted during that invocation (handler.py lines 118-121: `generate`
runs strictly after `process` returns). -/
theorem generate_artifact_persist_iff (stage : Stage) (art : PArtifact) :
    (generate_artifact stage false art).persisted = true ↔
      ∃ m, (process stage art).2 = Except.ok m := by
  unfold generate_artifact
  cases hp : process stage art with
  | mk a r =>
    cases r with
    | error e => simp [hp]
    | ok v => simp [hp]

end Dexy
